import Mathlib

/-!
Verification of the mcp-speech-to-text server: a shallow embedding of the
repository Python sources, together with proofs and refutations of the
claims drawn from the specification.

Embedded source files:
* `src/mcp_speech_to_text/server.py` — the `OfflineSpeechToTextServer` class:
  tool dispatch (`handle_call_tool`), transcription (`_transcribe_audio_offline`),
  format conversion (`_convert_audio_format`), recording
  (`_record_and_transcribe_offline`), model download (`_download_vosk_model`)
  and model initialization (`_initialize_vosk`).
* `src/mcp_speech_to_text/__main__.py` — `detect_platform_capabilities`.

External libraries (vosk, pydub, pyaudio, the standard library `os`/`wave`
modules) are not part of the repository; they are modelled at their interface
boundary.  Python strings are modelled as Lean `String`s, but the string
operations the code uses (`str.lower`, `str.endswith`, `str.strip`,
`" ".join`, `os.path.splitext`) are given explicit character-level Lean
definitions so that all theorems can be evaluated by the kernel.  JSON
payloads produced with `json.dumps` are modelled structurally (a `Payload`
inductive whose constructor fields are the dict entries the code writes)
rather than as rendered JSON text.
-/

/-! ## Python string primitives, modelled character-wise -/

/-- Python `" ".join(results)` (server.py lines 291 and 439). -/
def joinSpace : List String → String
  | [] => ""
  | [s] => s
  | s :: rest => s ++ " " ++ joinSpace rest

/-- Python `str.lower()`; the paths in this code base are ASCII, where
`Char.toLower` agrees with the Python lowercasing. -/
def pyLower (s : String) : String :=
  String.mk (s.data.map Char.toLower)

/-- Python `str.endswith(t)`. -/
def pyEndsWith (s t : String) : Bool :=
  t.data.isSuffixOf s.data

/-- Python `str.strip()`: remove leading and trailing whitespace. -/
def pyStrip (s : String) : String :=
  String.mk (((s.data.dropWhile Char.isWhitespace).reverse.dropWhile Char.isWhitespace).reverse)

/-- Index of the last occurrence of `c` in `l`, if any. -/
def lastIndexOf (c : Char) (l : List Char) : Option Nat :=
  l.enum.foldl (fun acc p => if p.2 = c then some p.1 else acc) none

/-- Python `os.path.splitext` for slash-separated paths: split at the last
dot of the final path component, unless that component consists of leading
dots only (server.py line 338 uses it to derive a default output name). -/
def splitext (p : String) : String × String :=
  let l := p.data
  match lastIndexOf '.' l with
  | none => (p, "")
  | some si =>
    let di := ((lastIndexOf '/' l).map (· + 1)).getD 0
    if di < si then
      if ((l.drop di).take (si - di)).any (fun ch => ch != '.') then
        (String.mk (l.take si), String.mk (l.drop si))
      else (p, "")
    else (p, "")

/-- Fuel-driven worker for `chunksOf` (structural recursion on the fuel, so
that the kernel can evaluate it). -/
def chunksOfFuel (fuel n : Nat) (l : List Nat) : List (List Nat) :=
  match fuel, l with
  | 0, _ => []
  | _, [] => []
  | fuel + 1, x :: xs => (x :: xs).take n :: chunksOfFuel fuel n ((x :: xs).drop n)

/-- The `wf.readframes(4000)` loop (server.py lines 275-278): split the audio into
successive chunks of `n` frames.  (`n = 0` cannot occur; the code uses the
constant 4000, and each step consumes at least one frame, so `l.length` fuel
always suffices.) -/
def chunksOf (n : Nat) (l : List Nat) : List (List Nat) :=
  chunksOfFuel l.length n l

/-! ## The vosk recognizer, modelled at its interface boundary

Modelled from the spec: the vosk library is not part of the repository; §1 and
§4.4 of the specification describe it as an opaque incremental decoder
(`decode(pcm_chunk) -> partial_text_or_none`, `finalize() -> trailing_text`)
that deterministically "decides utterance boundaries" from the audio it has
heard, signalling a boundary "by returning a non-empty recognized segment".
A `Decoder` value fixes that behaviour: `utterAll a` is the full ordered list
of recognized segments for audio `a` (end-of-stream flush included) and
`nCompleted a` says how many of them have been finalized while only `a` has
been heard.  `acceptErr a` models the vosk wrapper raising the
"Failed to process waveform" exception from `AcceptWaveform`. -/
structure Decoder where
  utterAll : List Nat → List String
  nCompleted : List Nat → Nat
  acceptErr : List Nat → Option String
  completed_le : ∀ a, nCompleted a ≤ (utterAll a).length
  mono : ∀ a b, nCompleted a ≤ nCompleted (a ++ b)
  stable : ∀ a b, (utterAll (a ++ b)).take (nCompleted a) = (utterAll a).take (nCompleted a)
  nonempty : ∀ a s, s ∈ utterAll a → s ≠ ""
  silent : utterAll [] = []

/-- State of one `vosk.KaldiRecognizer`: the audio fed so far and how many
finalized segments have already been returned through `Result()`. -/
structure RecState where
  fed : List Nat
  emitted : Nat
deriving DecidableEq

/-- Model of `rec.AcceptWaveform(data)` followed by reading the text field of
`json.loads(rec.Result())`
(server.py lines 280-283): feed one chunk; report `true` plus the newly
finalized text when an utterance boundary was crossed. -/
def acceptWaveform (d : Decoder) (s : RecState) (chunk : List Nat) :
    Bool × RecState × String :=
  let fed := s.fed ++ chunk
  let n := d.nCompleted fed
  if s.emitted < n then
    (true, ⟨fed, n⟩, joinSpace (((d.utterAll fed).take n).drop s.emitted))
  else
    (false, ⟨fed, s.emitted⟩, "")

/-- Model of the text field of `json.loads(rec.FinalResult())` (server.py line
286): the trailing
text flushed at end of stream. -/
def finalResultText (d : Decoder) (s : RecState) : String :=
  joinSpace ((d.utterAll s.fed).drop s.emitted)

/-- The accumulation loop of server.py lines 274-288 (and 419-432), generalized
over the chunk list: feed each chunk, append each non-empty recognized text to
`results`, and finally append the non-empty end-of-stream flush.  A raised
`AcceptWaveform` exception is propagated as `.error`. -/
def decodeSegs (d : Decoder) : List (List Nat) → RecState → Except String (List String)
  | [], s =>
    let t := finalResultText d s
    .ok (if t ≠ "" then [t] else [])
  | c :: cs, s =>
    match d.acceptErr (s.fed ++ c) with
    | some e => .error e
    | none =>
      match acceptWaveform d s c with
      | (true, s', t) =>
        (decodeSegs d cs s').map (fun rest => if t ≠ "" then t :: rest else rest)
      | (false, s', _) => decodeSegs d cs s'

/-- The `finalize` of one streaming decode session (server.py lines 274-291):
run the loop from a fresh recognizer and return
`" ".join(results).strip()`. -/
def finalize (d : Decoder) (chunks : List (List Nat)) : Except String String :=
  (decodeSegs d chunks ⟨[], 0⟩).map (fun results => pyStrip (joinSpace results))

/-! ## Server data model -/

/-- The mutable fields of `OfflineSpeechToTextServer` (server.py lines 40-41):
`self.vosk_model` (models are identified by a numeric handle) and
`self.vosk_rec`, a `KaldiRecognizer` recorded as its constructor arguments
(model handle, sample rate). -/
structure SState where
  vosk_model : Option Nat
  vosk_rec : Option (Nat × Nat)
deriving DecidableEq

/-- Parameters of a WAV stream as the `wave` module reports them, plus the
raw frames (`List Nat` abstracts the PCM sample data). -/
structure WavFile where
  nchannels : Nat
  sampwidth : Nat
  framerate : Nat
  audio : List Nat
deriving DecidableEq

/-- A file on disk: either a WAV file, or some other audio container
(`decodable` says whether pydub `AudioSegment.from_file` can decode it)
wrapping underlying audio with the given parameters. -/
inductive FileData where
  | wav (w : WavFile)
  | audio (decodable : Bool) (w : WavFile)
deriving DecidableEq

/-- The audio parameters pydub recovers from a file. -/
def fileAudio : FileData → WavFile
  | .wav w => w
  | .audio _ w => w

/-- Whether `AudioSegment.from_file` succeeds on the file. -/
def fileDecodable : FileData → Bool
  | .wav _ => true
  | .audio d _ => d

/-- The filesystem: an association of paths to file contents. -/
abbrev FS := List (String × FileData)

def fsLookup (fs : FS) (p : String) : Option FileData :=
  List.lookup p fs

/-- Python `os.path.exists`. -/
def fsExists (fs : FS) (p : String) : Bool :=
  (fsLookup fs p).isSome

/-- Delete every entry stored under path `p` (`os.unlink`). -/
def fsErase (p : String) (fs : FS) : FS :=
  fs.filter (fun e => !(e.1 == p))

/-- Write file contents at path `p`, replacing any previous entry. -/
def fsWrite (p : String) (v : FileData) (fs : FS) : FS :=
  (p, v) :: fsErase p fs

/-- A JSON value appearing in a tool-call `arguments` dict. -/
inductive AVal where
  | str (s : String)
  | num (n : Nat)
deriving DecidableEq

/-- The `arguments` dict of a tool call. -/
abbrev Args := List (String × AVal)

/-- Python `arguments.get(k)` expecting a string value. -/
def getStr (args : Args) (k : String) : Option String :=
  match List.lookup k args with
  | some (.str s) => some s
  | _ => none

/-- Python `arguments.get(k)` expecting a numeric value. -/
def getNum (args : Args) (k : String) : Option Nat :=
  match List.lookup k args with
  | some (.num n) => some n
  | _ => none

/-- The JSON payload of a `TextContent`, modelled structurally: one
constructor per `json.dumps({...})` site in server.py, with the dict entries
the claims inspect kept as fields. -/
inductive Payload where
  /-- lines 203-215 -/
  | supportedFormats (supported_input_formats : List String)
  /-- lines 221-232 and 392-398 -/
  | modelNotLoaded (message : String)
  /-- lines 255-261 -/
  | conversionFailed
  /-- lines 297-307 -/
  | transcriptionResult (transcription language file_path : String)
  /-- lines 322-329 -/
  | transcriptionFailed (message : String)
  /-- lines 356-363 -/
  | convertSuccess (input_path output_path : String) (sample_rate : Nat)
  /-- lines 378-384 -/
  | convertFailed (message : String)
  /-- lines 313-319, 369-375 and 453-459 -/
  | missingDependency (message : String)
  /-- lines 441-447 -/
  | recordingResult (transcription : String) (duration sample_rate : Nat)
  /-- lines 462-468 -/
  | recordingFailed (message : String)
  /-- lines 491-498 -/
  | modelNotAvailable (model_name : String)
  /-- lines 520-530 -/
  | downloadSuccess (model_name language : String)
  /-- lines 534-541 -/
  | downloadFailed (message : String) (model_name : String)
deriving DecidableEq

/-- Model of `TextContent(type="text", text=json.dumps(payload))`. -/
structure TextContent where
  type : String
  text : Payload
deriving DecidableEq

def envelope (p : Payload) : TextContent :=
  ⟨"text", p⟩

deriving instance DecidableEq for Except

/-- Outcome of one handler/tool call: the server state and filesystem after
the call, the warning log lines emitted (only the format warning of line 269
is modelled), and either the returned `list[TextContent]` or a raised Python
exception (`.error` carries `str(e)`). -/
structure CallOut where
  st : SState
  fs : FS
  logs : List String
  res : Except String (List TextContent)
deriving DecidableEq

/-- The behaviour of everything outside the repository that a call can touch:
vosk decoding behaviour per (model handle, recognizer sample rate), library
availability, the microphone, the network, and the contents of the models
directory after a download. -/
structure Env where
  decoders : Nat → Nat → Decoder
  pydubAvailable : Bool
  pyaudioAvailable : Bool
  micOpenErr : Option String
  micChunks : List (List Nat)
  downloadErr : Option String
  foundModel : Option Nat

/-- The `str(TypeError)` raised by `os.path.exists(None)` / `os.path.splitext(None)`
when a required string argument is absent from `arguments`. -/
def typeErrorMsg : String :=
  "expected str, bytes or os.PathLike object, not NoneType"

/-- The `wave.Error` message for a file that is not RIFF data. -/
def waveOpenErrMsg : String :=
  "file does not start with RIFF id"

/-- The format warning of server.py line 269. -/
def formatWarning (w : WavFile) : String :=
  "Audio format not optimal: " ++ toString w.nchannels ++ "ch, "
    ++ toString w.sampwidth ++ "bytes, " ++ toString w.framerate ++ "Hz"

def warnList (w : WavFile) : List String :=
  if w.nchannels != 1 || w.sampwidth != 2 || w.framerate != 16000 then
    [formatWarning w]
  else []

/-! ## The tool handlers -/

/-- Handler `_get_supported_formats` (server.py lines 201-215). -/
def get_supported_formats : List TextContent :=
  [envelope (.supportedFormats [".wav", ".mp3", ".flac", ".m4a", ".ogg", ".webm", ".amr"])]

/-- Method `_initialize_vosk` (server.py lines 45-76): look for a model directory
(`env.foundModel` is the first `"vosk-model"`-prefixed entry of the models
directory, if any); when one is found, reassign `self.vosk_model` and build a
fresh `KaldiRecognizer(model, 16000)` in `self.vosk_rec`; otherwise leave both
fields untouched. -/
def initialize_vosk (env : Env) (st : SState) : SState :=
  match env.foundModel with
  | none => st
  | some m => { vosk_model := some m, vosk_rec := some (m, 16000) }

/-- The `try:` body of `_convert_audio_format` (server.py lines 341-384): it
imports pydub, decodes the input, calls `set_channels(1)`, `set_frame_rate(rate)`
and exports as WAV.  The pydub `set_channels`/`set_frame_rate` calls change only the
channel count and frame rate; the sample width is whatever the input had
(changing it would need the separate `set_sample_width`, which the code never
calls).  All exceptions inside the body are caught and turned into
envelopes. -/
def convertBody (env : Env) (fs : FS) (ip? : Option String) (op : String)
    (sample_rate : Nat) : FS × Except String (List TextContent) :=
  if !env.pydubAvailable then
    (fs, .ok [envelope (.missingDependency "Install pydub: pip install pydub")])
  else
    match ip? with
    | none => (fs, .ok [envelope (.convertFailed typeErrorMsg)])
    | some ip =>
      match fsLookup fs ip with
      | none => (fs, .ok [envelope (.convertFailed ("No such file or directory: " ++ ip))])
      | some fd =>
        if fileDecodable fd then
          let w := fileAudio fd
          (fsWrite op (.wav ⟨1, w.sampwidth, sample_rate, w.audio⟩) fs,
            .ok [envelope (.convertSuccess ip op sample_rate)])
        else
          (fs, .ok [envelope (.convertFailed ("Decoding failed: " ++ ip))])

/-- Handler `_convert_audio_format` (server.py lines 331-384).  When `output_path` is
absent it is derived with `os.path.splitext` (line 338) — which raises an
uncaught `TypeError` when `input_path` is also absent, since that statement
sits before the `try:`. -/
def convert_audio_format (env : Env) (fs : FS) (args : Args) :
    FS × Except String (List TextContent) :=
  let sample_rate := (getNum args "sample_rate").getD 16000
  match getStr args "output_path", getStr args "input_path" with
  | none, none => (fs, .error typeErrorMsg)
  | none, some ip => convertBody env fs (some ip) ((splitext ip).1 ++ "_converted.wav") sample_rate
  | some op, ip? => convertBody env fs ip? op sample_rate

/-- Lines 263-329 of `_transcribe_audio_offline`: open `wav_path` with the
`wave` module (raising inside the `try:` if it is not RIFF data, caught at
line 320), log the line-269 warning if the format is not 16 kHz mono 16-bit,
rebuild `self.vosk_rec` as `KaldiRecognizer(self.vosk_model, wf.getframerate())`
(line 272), run the chunked decode loop, join-and-strip the results, and on
the success path only delete the converted intermediate file (lines 293-295). -/
def decodePhase (env : Env) (st : SState) (fs : FS) (m : Nat)
    (file_path wav_path model_language : String) : CallOut :=
  match fsLookup fs wav_path with
  | some (.wav w) =>
    let st' := { st with vosk_rec := some (m, w.framerate) }
    match decodeSegs (env.decoders m w.framerate) (chunksOf 4000 w.audio) ⟨[], 0⟩ with
    | .error e => ⟨st', fs, warnList w, .ok [envelope (.transcriptionFailed e)]⟩
    | .ok results =>
      let full_transcription := pyStrip (joinSpace results)
      let fs2 :=
        if wav_path != file_path && fsExists fs wav_path then fsErase wav_path fs else fs
      ⟨st', fs2, warnList w,
        .ok [envelope (.transcriptionResult full_transcription model_language file_path)]⟩
  | some (.audio _ _) => ⟨st, fs, [], .ok [envelope (.transcriptionFailed waveOpenErrMsg)]⟩
  | none => ⟨st, fs, [], .ok [envelope (.transcriptionFailed ("No such file or directory: " ++ wav_path))]⟩

/-- Handler `_transcribe_audio_offline` (server.py lines 217-329).  The model-loaded
guard (line 220) precedes everything; `os.path.exists` on a missing
`file_path` key raises `TypeError`, and a nonexistent path raises
`FileNotFoundError` (line 238) — both outside the `try:`, so they propagate
to the caller.  A path not ending in `.wav` (case-insensitive, line 245) is
first converted to `file_path + "_converted.wav"` at 16000 Hz. -/
def transcribe_audio_offline (env : Env) (st : SState) (fs : FS) (args : Args) : CallOut :=
  match st.vosk_model, st.vosk_rec with
  | some m, some _r =>
    (match getStr args "file_path" with
     | none => ⟨st, fs, [], .error typeErrorMsg⟩
     | some file_path =>
       if !fsExists fs file_path then
         ⟨st, fs, [], .error ("Audio file not found: " ++ file_path)⟩
       else
         let model_language := (getStr args "model_language").getD "en"
         if !pyEndsWith (pyLower file_path) ".wav" then
           let wav_path := file_path ++ "_converted.wav"
           let fs1 := (convert_audio_format env fs
             [("input_path", .str file_path), ("output_path", .str wav_path),
              ("sample_rate", .num 16000)]).1
           if !fsExists fs1 wav_path then
             ⟨st, fs1, [], .ok [envelope .conversionFailed]⟩
           else decodePhase env st fs1 m file_path wav_path model_language
         else decodePhase env st fs m file_path file_path model_language)
  | _, _ =>
    ⟨st, fs, [],
      .ok [envelope (.modelNotLoaded "Please download a Vosk model using download_vosk_model tool")]⟩

/-- Handler `_record_and_transcribe_offline` (server.py lines 386-468): check the
model, open the microphone (`env.micOpenErr` is the `pyaudio` failure, if
any), read `int(sample_rate / 4000 * duration)` chunks of 4000 frames from
the device (`env.micChunks`), and run the same accumulation loop on a local
recognizer.  All exceptions in the `try:` become envelopes. -/
def record_and_transcribe_offline (env : Env) (st : SState) (fs : FS) (args : Args) : CallOut :=
  let duration := (getNum args "duration").getD 5
  let sample_rate := (getNum args "sample_rate").getD 16000
  match st.vosk_model, st.vosk_rec with
  | some m, some _r =>
    if !env.pyaudioAvailable then
      ⟨st, fs, [], .ok [envelope (.missingDependency "No module named pyaudio")]⟩
    else
      match env.micOpenErr with
      | some e => ⟨st, fs, [], .ok [envelope (.recordingFailed e)]⟩
      | none =>
        let frames := env.micChunks.take (sample_rate * duration / 4000)
        match decodeSegs (env.decoders m sample_rate) frames ⟨[], 0⟩ with
        | .error e => ⟨st, fs, [], .ok [envelope (.recordingFailed e)]⟩
        | .ok results =>
          ⟨st, fs, [],
            .ok [envelope (.recordingResult (pyStrip (joinSpace results)) duration sample_rate)]⟩
  | _, _ =>
    ⟨st, fs, [], .ok [envelope (.modelNotLoaded "Please download a Vosk model first")]⟩

/-- The model catalogue of server.py lines 480-487. -/
def model_urls : List (String × String) :=
  [("small-en-us", "https://alphacephei.com/vosk/models/vosk-model-small-en-us-0.15.zip"),
   ("en-us", "https://alphacephei.com/vosk/models/vosk-model-en-us-0.22.zip"),
   ("small-zh", "https://alphacephei.com/vosk/models/vosk-model-small-cn-0.22.zip"),
   ("small-fr", "https://alphacephei.com/vosk/models/vosk-model-small-fr-0.22.zip"),
   ("small-de", "https://alphacephei.com/vosk/models/vosk-model-small-de-0.15.zip"),
   ("small-es", "https://alphacephei.com/vosk/models/vosk-model-small-es-0.42.zip")]

/-- Handler `_download_vosk_model` (server.py lines 470-541): unknown model name →
envelope; download/extract failure (`env.downloadErr`) → envelope; on success
re-run `_initialize_vosk` (line 518), reassigning the shared
`self.vosk_model` / `self.vosk_rec` in place. -/
def download_vosk_model (env : Env) (st : SState) (fs : FS) (args : Args) : CallOut :=
  let model_name := (getStr args "model_name").getD "small-en-us"
  let language := (getStr args "language").getD "en"
  match List.lookup model_name model_urls with
  | none => ⟨st, fs, [], .ok [envelope (.modelNotAvailable model_name)]⟩
  | some _url =>
    match env.downloadErr with
    | some e => ⟨st, fs, [], .ok [envelope (.downloadFailed e model_name)]⟩
    | none =>
      ⟨initialize_vosk env st, fs, [],
        .ok [envelope (.downloadSuccess model_name language)]⟩

/-- The dispatch chain of `handle_call_tool` (server.py lines 184-195). -/
def dispatch (env : Env) (st : SState) (fs : FS) (name : String) (args : Args) : CallOut :=
  if name = "get_supported_formats" then ⟨st, fs, [], .ok get_supported_formats⟩
  else if name = "transcribe_audio_offline" then transcribe_audio_offline env st fs args
  else if name = "convert_audio_format" then
    let (fs', r) := convert_audio_format env fs args
    ⟨st, fs', [], r⟩
  else if name = "record_and_transcribe_offline" then record_and_transcribe_offline env st fs args
  else if name = "download_vosk_model" then download_vosk_model env st fs args
  else ⟨st, fs, [], .error ("Unknown tool: " ++ name)⟩

/-- Gateway `handle_call_tool` (server.py lines 178-199): dispatch on the tool name;
any exception `e` escaping a handler (including the `ValueError` for an
unknown name) is caught and re-raised as `Exception("Internal error: " + str(e))`
— it is not converted into a returned envelope. -/
def handle_call_tool (env : Env) (st : SState) (fs : FS) (name : String) (args : Args) : CallOut :=
  let out := dispatch env st fs name args
  match out.res with
  | .ok r => ⟨out.st, out.fs, out.logs, .ok r⟩
  | .error e => ⟨out.st, out.fs, out.logs, .error ("Internal error: " ++ e)⟩

/-! ## Backend capability detection (`__main__.py`) -/

/-- The `capabilities` dict built by `detect_platform_capabilities`
(`__main__.py` lines 25-32). -/
structure Capabilities where
  platform : String
  vosk_supported : Bool
  speechrecognition_supported : Bool
  offline_capable : Bool
  recommended_backend : Option String
  production_ready : Bool
deriving DecidableEq

/-- Function `detect_platform_capabilities` (`__main__.py` lines 20-86).  `system` and
`machine` come from the `platform` module; `vosk_ok` / `sr_ok` are the
outcomes of the two import probes (lines 37-65), which never raise — a
failed probe is recorded as `false`.  Lines 68-84 then pick the backend. -/
def detect_platform_capabilities (system machine : String) (vosk_ok sr_ok : Bool) :
    Capabilities :=
  let caps : Capabilities :=
    { platform := system ++ "-" ++ machine
      vosk_supported := vosk_ok
      speechrecognition_supported := sr_ok
      offline_capable := vosk_ok
      recommended_backend := none
      production_ready := false }
  if system = "linux" ∧ machine = "x86_64" ∧ vosk_ok then
    { caps with recommended_backend := some "vosk", production_ready := true }
  else if vosk_ok then
    { caps with recommended_backend := some "vosk", production_ready := true }
  else if sr_ok then
    { caps with recommended_backend := some "speechrecognition",
                production_ready := (system = "linux") }
  else
    caps

/-- Backend selection as the spec words it (§4.2): the offline decoder
(vosk) is preferred unconditionally; otherwise the online recognizer
(SpeechRecognition); otherwise none.  Written from the spec, to be compared
with `detect_platform_capabilities`. -/
def select_spec (offlineAvailable onlineAvailable : Bool) : Option String :=
  if offlineAvailable then some "vosk"
  else if onlineAvailable then some "speechrecognition"
  else none

/-! ## Interleaving of a transcription session with a model replacement

The spec concurrency model (§5) lets tool invocations run concurrently,
"cooperative or thread-based, the design does not mandate which".  The steps
below are the atomic points at which a transcription session touches the
shared `self.vosk_model` / `self.vosk_rec` fields, and the point at which a
completing `download_vosk_model` call reassigns them (line 518 calls
`_initialize_vosk`). -/
inductive Step where
  /-- server.py line 220: the session reads `self.vosk_model` for the
  not-loaded guard when it opens. -/
  | sessionCheck
  /-- server.py lines 508-518: a concurrent `download_vosk_model` call
  completes and re-runs `_initialize_vosk`, reassigning the shared fields. -/
  | replaceCompletes
  /-- server.py line 272: the session resumes after the conversion step and
  rebuilds `self.vosk_rec = KaldiRecognizer(self.vosk_model, framerate)` from
  the *current* shared state. -/
  | sessionResume (framerate : Nat)
deriving DecidableEq

/-- What the session observed: the model present at its opening check, and
the (model, rate) pair its recognizer is built from at line 272 — the model
it decodes with. -/
structure TraceObs where
  checkedModel : Option Nat
  recognizerUsed : Option (Nat × Nat)
deriving DecidableEq

/-- The recognizer the session builds at line 272 as a function of the server
state at that moment. -/
def sessionRecognizerAtResume (st : SState) (framerate : Nat) : Option (Nat × Nat) :=
  st.vosk_model.map (fun m => (m, framerate))

/-- Run an interleaving of the steps above over the shared server state,
recording the observations of the session. -/
def runSteps (env : Env) : List Step → SState → TraceObs → SState × TraceObs
  | [], st, o => (st, o)
  | .sessionCheck :: r, st, o =>
    runSteps env r st { o with checkedModel := st.vosk_model }
  | .replaceCompletes :: r, st, o =>
    runSteps env r (initialize_vosk env st) o
  | .sessionResume fr :: r, st, o =>
    let rec? := sessionRecognizerAtResume st fr
    runSteps env r { st with vosk_rec := rec? } { o with recognizerUsed := rec? }

/-! ## Concrete decoders, environments and states used in witnesses -/

/-- A decoder that never recognizes anything and never fails. -/
def quietDecoder : Decoder where
  utterAll _ := []
  nCompleted _ := 0
  acceptErr _ := none
  completed_le _ := Nat.le_refl 0
  mono _ _ := Nat.le_refl 0
  stable _ _ := rfl
  nonempty _ _ h := absurd h (List.not_mem_nil _)
  silent := rfl

/-- A decoder that recognizes the single utterance `"hello"` once it has
heard at least two samples, finalizing it after four samples. -/
def helloDecoder : Decoder where
  utterAll a := if 2 ≤ a.length then ["hello"] else []
  nCompleted a := if 4 ≤ a.length then 1 else 0
  acceptErr _ := none
  completed_le a := by
    dsimp only
    by_cases h4 : 4 ≤ a.length
    · have h2 : 2 ≤ a.length := by omega
      simp [h4, h2]
    · simp [h4]
  mono a b := by
    dsimp only
    by_cases h4 : 4 ≤ a.length
    · have h4' : 4 ≤ a.length + b.length := by omega
      simp [h4, h4']
    · simp [h4]
  stable a b := by
    dsimp only
    by_cases h4 : 4 ≤ a.length
    · have h2 : 2 ≤ a.length := by omega
      have h2' : 2 ≤ a.length + b.length := by omega
      simp [h4, h2, h2']
    · simp [h4]
  nonempty a s h := by
    dsimp only at h
    split at h
    · rcases List.mem_singleton.mp h with rfl
      decide
    · exact absurd h (List.not_mem_nil _)
  silent := by simp

/-- A decoder whose `AcceptWaveform` always raises, as the vosk wrapper does
when the native call fails. -/
def failingDecoder : Decoder where
  utterAll _ := []
  nCompleted _ := 0
  acceptErr _ := some "Failed to process waveform"
  completed_le _ := Nat.le_refl 0
  mono _ _ := Nat.le_refl 0
  stable _ _ := rfl
  nonempty _ _ h := absurd h (List.not_mem_nil _)
  silent := rfl

/-- An environment where every recognizer behaves like `dec`, all libraries
are importable, the microphone and network work, and re-probing the models
directory finds `foundModel`. -/
def mkEnv (dec : Nat → Nat → Decoder) (foundModel : Option Nat) : Env where
  decoders := dec
  pydubAvailable := true
  pyaudioAvailable := true
  micOpenErr := none
  micChunks := []
  downloadErr := none
  foundModel := foundModel

def envQuiet : Env := mkEnv (fun _ _ => quietDecoder) none

def envHello : Env := mkEnv (fun _ _ => helloDecoder) none

def envFailing : Env := mkEnv (fun _ _ => failingDecoder) none

/-- An environment in which a completed download has installed model `2`. -/
def envModel2 : Env := mkEnv (fun _ _ => quietDecoder) (some 2)

/-- A server with model `1` loaded. -/
def stLoaded : SState := ⟨some 1, some (1, 16000)⟩

/-- A server with no model loaded. -/
def stUnloaded : SState := ⟨none, none⟩

/-- Canonical audio in the sense of spec §3: one channel, 16-bit samples
(sample width 2 bytes), and the given target rate. -/
def isCanonical (w : WavFile) (rate : Nat) : Prop :=
  w.nchannels = 1 ∧ w.sampwidth = 2 ∧ w.framerate = rate

instance (w : WavFile) (rate : Nat) : Decidable (isCanonical w rate) := by
  unfold isCanonical
  infer_instance

/-- A 24-bit stereo 44.1 kHz m4a file: input for the C5 counterexample. -/
def fsDeep : FS := [("a.m4a", .audio true ⟨2, 3, 44100, [7]⟩)]

/-- A decodable mp3 file: input for the C9 counterexample. -/
def fsMp3 : FS := [("voice.mp3", .audio true ⟨2, 2, 44100, [1, 2, 3]⟩)]

/-- A non-canonical (stereo, 44.1 kHz) WAV file under an upper-case name:
input for the C10 witness. -/
def fsUpperWav : FS := [("A.WAV", .wav ⟨2, 2, 44100, [1, 2, 3]⟩)]

/-- An empty (zero-frame) canonical WAV file: input for the C6 witness. -/
def fsEmptyWav : FS := [("e.wav", .wav ⟨1, 2, 16000, []⟩)]

/-! ## Helper lemmas about strings and `joinSpace` -/

theorem string_data_eq_nil_iff (s : String) : s = "" ↔ s.data = [] := by
  constructor
  · intro h; rw [h]
  · intro h; apply String.ext; rw [h]

theorem string_append_ne_empty_left (a b : String) (h : a ≠ "") : a ++ b ≠ "" := by
  intro hc
  apply h
  rw [string_data_eq_nil_iff] at hc ⊢
  have hd : (a ++ b).data = a.data ++ b.data := by cases a; cases b; rfl
  rw [hd] at hc
  exact (List.append_eq_nil.mp hc).1

theorem joinSpace_cons_of_ne_nil (a : String) {l : List String} (h : l ≠ []) :
    joinSpace (a :: l) = a ++ " " ++ joinSpace l := by
  cases l with
  | nil => exact absurd rfl h
  | cons b t => rfl

theorem joinSpace_append {l₁ l₂ : List String} (h₁ : l₁ ≠ []) (h₂ : l₂ ≠ []) :
    joinSpace (l₁ ++ l₂) = joinSpace l₁ ++ " " ++ joinSpace l₂ := by
  induction l₁ with
  | nil => exact absurd rfl h₁
  | cons a t ih =>
    cases t with
    | nil =>
      simp only [List.singleton_append]
      exact joinSpace_cons_of_ne_nil a h₂
    | cons b t' =>
      have hne : (b :: t') ++ l₂ ≠ [] := by simp
      rw [List.cons_append, joinSpace_cons_of_ne_nil a hne, ih (by simp),
        joinSpace_cons_of_ne_nil a (l := b :: t') (by simp)]
      apply String.ext
      cases a
      simp [String.data]

theorem joinSpace_ne_empty {l : List String} (hne : ∀ t ∈ l, t ≠ "") (h : l ≠ []) :
    joinSpace l ≠ "" := by
  cases l with
  | nil => exact absurd rfl h
  | cons a t =>
    cases t with
    | nil => exact hne a (by simp)
    | cons b t' =>
      rw [joinSpace_cons_of_ne_nil a (by simp)]
      exact string_append_ne_empty_left _ _
        (string_append_ne_empty_left _ _ (hne a (by simp)))

theorem joinSpace_eq_empty_iff {l : List String} (hne : ∀ t ∈ l, t ≠ "") :
    joinSpace l = "" ↔ l = [] := by
  constructor
  · intro h
    by_contra hl
    exact joinSpace_ne_empty hne hl h
  · intro h; rw [h]; rfl

theorem take_drop_splice {α : Type} (e n : Nat) (u : List α)
    (h₁ : e ≤ n) (h₂ : n ≤ u.length) :
    (u.take n).drop e ++ u.drop n = u.drop e := by
  calc (u.take n).drop e ++ u.drop n
      = (u.take n).drop e ++ (u.drop n).drop (e - (u.take n).length) := by
        rw [List.length_take, Nat.min_eq_left h₂, Nat.sub_eq_zero_of_le h₁, List.drop_zero]
    _ = (u.take n ++ u.drop n).drop e := (List.drop_append_eq_append_drop).symm
    _ = u.drop e := by rw [List.take_append_drop]

/-! ## The session loop: characterization of `decodeSegs` -/

/-- When the recognizer never raises, the accumulation loop always succeeds,
every accumulated segment is non-empty, and the space-join of the accumulated
segments equals the space-join of all not-yet-emitted recognized segments of
the *concatenated* audio — independent of how that audio was chunked. -/
theorem decodeSegs_ok (d : Decoder) (hclean : ∀ a, d.acceptErr a = none)
    (cs : List (List Nat)) : ∀ (s : RecState), s.emitted ≤ d.nCompleted s.fed →
    ∃ segs, decodeSegs d cs s = .ok segs ∧ (∀ t ∈ segs, t ≠ "") ∧
      joinSpace segs = joinSpace ((d.utterAll (s.fed ++ cs.flatten)).drop s.emitted) := by
  induction cs with
  | nil =>
    intro s _hs
    by_cases ht : finalResultText d s = ""
    · refine ⟨[], ?_, by simp, ?_⟩
      · simp [decodeSegs, ht]
      · simpa [List.flatten_nil, List.append_nil, finalResultText] using ht.symm
    · refine ⟨[finalResultText d s], ?_, ?_, ?_⟩
      · simp [decodeSegs, ht]
      · intro t htm
        rcases List.mem_singleton.mp htm with rfl
        exact ht
      · simp [List.flatten_nil, List.append_nil, finalResultText, joinSpace]
  | cons c cs ih =>
    intro s hs
    have hacc := hclean (s.fed ++ c)
    by_cases hb : s.emitted < d.nCompleted (s.fed ++ c)
    · obtain ⟨segs, h1, h2, h3⟩ :=
        ih ⟨s.fed ++ c, d.nCompleted (s.fed ++ c)⟩ (Nat.le_refl _)
      set n := d.nCompleted (s.fed ++ c) with hn
      set G := ((d.utterAll (s.fed ++ c)).take n).drop s.emitted with hG
      have hGlen : G.length = n - s.emitted := by
        rw [hG, List.length_drop, List.length_take, Nat.min_eq_left (d.completed_le _)]
      have hGne : G ≠ [] := by
        apply List.length_pos.mp
        omega
      have hGelem : ∀ t ∈ G, t ≠ "" := fun t htm =>
        d.nonempty _ t (List.mem_of_mem_take (List.mem_of_mem_drop htm))
      have ht : joinSpace G ≠ "" := joinSpace_ne_empty hGelem hGne
      refine ⟨joinSpace G :: segs, ?_, ?_, ?_⟩
      · simp only [decodeSegs, hacc, acceptWaveform, ← hn, ← hG, if_pos hb, h1, Except.map]
        simp [ht]
      · intro t htm
        rcases List.mem_cons.mp htm with rfl | hmem
        · exact ht
        · exact h2 t hmem
      · -- the join of the accumulated segments covers exactly the
        -- not-yet-emitted recognized segments of the full audio
        have hflat : s.fed ++ (c :: cs).flatten = (s.fed ++ c) ++ cs.flatten := by
          simp [List.flatten_cons, List.append_assoc]
        rw [hflat]
        set u := d.utterAll ((s.fed ++ c) ++ cs.flatten) with hu
        have take_eq : u.take n = (d.utterAll (s.fed ++ c)).take n := d.stable (s.fed ++ c) cs.flatten
        have n_le_u : n ≤ u.length := (d.mono (s.fed ++ c) cs.flatten).trans (d.completed_le _)
        have hsplice : (u.take n).drop s.emitted ++ u.drop n = u.drop s.emitted :=
          take_drop_splice s.emitted n u (Nat.le_of_lt hb) n_le_u
        have hGu : G = (u.take n).drop s.emitted := by rw [take_eq, hG]
        have hdropelem : ∀ t ∈ u.drop n, t ≠ "" := fun t htm =>
          d.nonempty _ t (List.mem_of_mem_drop htm)
        by_cases hdrop : u.drop n = []
        · have hsegs : segs = [] := by
            apply (joinSpace_eq_empty_iff h2).mp
            rw [h3, hdrop]
            rfl
          rw [hsegs]
          rw [hdrop, List.append_nil] at hsplice
          rw [← hsplice, ← hGu]
          rfl
        · have hsegsne : segs ≠ [] := by
            intro hc
            apply joinSpace_ne_empty hdropelem hdrop
            rw [← h3, hc]
            rfl
          rw [joinSpace_cons_of_ne_nil _ hsegsne, h3, ← hsplice, ← hGu,
            joinSpace_append hGne hdrop]
    · obtain ⟨segs, h1, h2, h3⟩ :=
        ih ⟨s.fed ++ c, s.emitted⟩ (hs.trans (d.mono s.fed c))
      refine ⟨segs, ?_, h2, ?_⟩
      · simp only [decodeSegs, hacc, acceptWaveform, if_neg hb]
        exact h1
      · rw [h3]
        have hflat : s.fed ++ (c :: cs).flatten = (s.fed ++ c) ++ cs.flatten := by
          simp [List.flatten_cons, List.append_assoc]
        rw [hflat]

/-! ## Helper lemmas about the filesystem model -/

theorem fsLookup_cons (k q : String) (v : FileData) (fs : FS) :
    fsLookup ((k, v) :: fs) q = if q = k then some v else fsLookup fs q := by
  by_cases h : q = k
  · simp [fsLookup, List.lookup, h]
  · simp [fsLookup, List.lookup, h, beq_false_of_ne h]

theorem fsLookup_fsErase (p q : String) (fs : FS) :
    fsLookup (fsErase p fs) q = if q = p then none else fsLookup fs q := by
  induction fs with
  | nil => simp [fsErase, fsLookup, List.lookup]
  | cons e rest ih =>
    obtain ⟨k, v⟩ := e
    by_cases hkp : k = p
    · subst hkp
      have : fsErase k ((k, v) :: rest) = fsErase k rest := by
        simp [fsErase]
      rw [this, ih]
      by_cases hq : q = k <;> simp [hq, fsLookup_cons]
    · have hk : (k == p) = false := beq_false_of_ne hkp
      have : fsErase p ((k, v) :: rest) = (k, v) :: fsErase p rest := by
        simp [fsErase, List.filter_cons, hk]
      rw [this, fsLookup_cons, fsLookup_cons, ih]
      by_cases hq : q = k
      · subst hq
        simp [hkp]
      · simp [hq]

theorem fsLookup_fsWrite (p q : String) (v : FileData) (fs : FS) :
    fsLookup (fsWrite p v fs) q = if q = p then some v else fsLookup fs q := by
  rw [fsWrite, fsLookup_cons, fsLookup_fsErase]
  by_cases hq : q = p <;> simp [hq]

theorem fsExists_of_lookup {fs : FS} {p : String} {v : FileData}
    (h : fsLookup fs p = some v) : fsExists fs p = true := by
  simp [fsExists, h]

/-- Path `p ++ "_converted.wav"` differs from the input path `p`. -/
theorem converted_path_ne (p : String) : (p ++ "_converted.wav") ≠ p := by
  intro h
  have hlen := congrArg String.length h
  rw [String.length_append] at hlen
  have : ("_converted.wav" : String).length = 14 := rfl
  omega

/-! ## Lemmas lifting dispatch results through `handle_call_tool` -/

theorem dispatch_transcribe (env : Env) (st : SState) (fs : FS) (args : Args) :
    dispatch env st fs "transcribe_audio_offline" args
      = transcribe_audio_offline env st fs args := by
  unfold dispatch
  rw [if_neg (by decide), if_pos rfl]

theorem handle_call_tool_error (env : Env) (st : SState) (fs : FS) (name : String)
    (args : Args) (st' : SState) (fs' : FS) (logs : List String) (e : String)
    (h : dispatch env st fs name args = ⟨st', fs', logs, .error e⟩) :
    handle_call_tool env st fs name args
      = ⟨st', fs', logs, .error ("Internal error: " ++ e)⟩ := by
  unfold handle_call_tool
  rw [h]

theorem handle_call_tool_ok (env : Env) (st : SState) (fs : FS) (name : String)
    (args : Args) (st' : SState) (fs' : FS) (logs : List String) (r : List TextContent)
    (h : dispatch env st fs name args = ⟨st', fs', logs, .ok r⟩) :
    handle_call_tool env st fs name args = ⟨st', fs', logs, .ok r⟩ := by
  unfold handle_call_tool
  rw [h]

/-- Raising `FileNotFoundError` at server.py line 238. -/
theorem transcribe_not_found (env : Env) (st : SState) (fs : FS) (args : Args)
    (m : Nat) (r : Nat × Nat) (path : String)
    (hm : st.vosk_model = some m) (hr : st.vosk_rec = some r)
    (hp : getStr args "file_path" = some path)
    (hex : fsExists fs path = false) :
    transcribe_audio_offline env st fs args
      = ⟨st, fs, [], .error ("Audio file not found: " ++ path)⟩ := by
  obtain ⟨vm, vr⟩ := st
  dsimp only at hm hr
  subst hm
  subst hr
  unfold transcribe_audio_offline
  simp [hp, hex]

/-- Characterization of a transcription run on a `.wav`-named input (shared
by several claims): no conversion happens, the filesystem is untouched, the
shared recognizer is rebuilt at the frame rate of the file, the only log output
is the (possible) format warning, and the returned transcription is the
join-and-strip of the accumulated segments. -/
theorem transcribe_wav_run (env : Env) (st : SState) (fs : FS) (args : Args)
    (m : Nat) (r : Nat × Nat) (path : String) (w : WavFile)
    (hm : st.vosk_model = some m) (hr : st.vosk_rec = some r)
    (hp : getStr args "file_path" = some path)
    (hw : pyEndsWith (pyLower path) ".wav" = true)
    (hf : fsLookup fs path = some (.wav w))
    (hclean : ∀ a, (env.decoders m w.framerate).acceptErr a = none) :
    ∃ segs, decodeSegs (env.decoders m w.framerate) (chunksOf 4000 w.audio) ⟨[], 0⟩ = .ok segs ∧
      transcribe_audio_offline env st fs args
        = ⟨{ st with vosk_rec := some (m, w.framerate) }, fs, warnList w,
           .ok [envelope (.transcriptionResult (pyStrip (joinSpace segs))
             ((getStr args "model_language").getD "en") path)]⟩ := by
  obtain ⟨segs, hseg, -, -⟩ :=
    decodeSegs_ok (env.decoders m w.framerate) hclean (chunksOf 4000 w.audio) ⟨[], 0⟩
      (Nat.zero_le _)
  refine ⟨segs, hseg, ?_⟩
  obtain ⟨vm, vr⟩ := st
  dsimp only at hm hr
  subst hm
  subst hr
  unfold transcribe_audio_offline decodePhase
  simp [hp, hw, hf, hseg, fsExists_of_lookup hf]

/-- Applying `_convert_audio_format` with explicit arguments reduces it to its
`try:` body. -/
theorem convert_with_explicit_args (env : Env) (fs : FS) (ip op : String) (sr : Nat) :
    convert_audio_format env fs
        [("input_path", .str ip), ("output_path", .str op), ("sample_rate", .num sr)]
      = convertBody env fs (some ip) op sr := rfl

/-- Conversion touches no path other than its output path. -/
theorem convertBody_fs (env : Env) (fs : FS) (ip? : Option String) (op : String)
    (sr : Nat) (q : String) (hq : q ≠ op) :
    fsLookup (convertBody env fs ip? op sr).1 q = fsLookup fs q := by
  unfold convertBody
  split
  · rfl
  · split
    · rfl
    · split
      · rfl
      · split
        · simp only
          rw [fsLookup_fsWrite, if_neg hq]
        · rfl

/-- The decode phase touches no path other than `wav_path` (which it may
delete on the success path). -/
theorem decodePhase_fs (env : Env) (st : SState) (fs : FS) (m : Nat)
    (file_path wav_path lang q : String) (hq : q ≠ wav_path) :
    fsLookup (decodePhase env st fs m file_path wav_path lang).fs q = fsLookup fs q := by
  unfold decodePhase
  split
  · split
    · rfl
    · simp only
      split
      · rw [fsLookup_fsErase, if_neg hq]
      · rfl
  · rfl
  · rfl

/-- When no conversion happened (`wav_path = file_path`), the decode phase
leaves the filesystem untouched: the cleanup of lines 293-295 is guarded by
`wav_path != file_path`. -/
theorem decodePhase_fs_self (env : Env) (st : SState) (fs : FS) (m : Nat)
    (path lang q : String) :
    fsLookup (decodePhase env st fs m path path lang).fs q = fsLookup fs q := by
  unfold decodePhase
  split
  · split
    · rfl
    · simp only
      rw [if_neg (by simp)]
  · rfl
  · rfl

/-- The entry stored at the input path is never changed or removed by a
transcription call, on any exit path. -/
theorem transcribe_preserves_input (env : Env) (st : SState) (fs : FS) (args : Args)
    (path : String) (hp : getStr args "file_path" = some path) :
    fsLookup (transcribe_audio_offline env st fs args).fs path = fsLookup fs path := by
  obtain ⟨vm, vr⟩ := st
  unfold transcribe_audio_offline
  cases vm with
  | none => rfl
  | some m =>
    cases vr with
    | none => rfl
    | some r =>
      simp only [hp]
      by_cases hex : fsExists fs path
      · rw [if_neg (by simp [hex])]
        by_cases hwav : pyEndsWith (pyLower path) ".wav"
        · rw [if_neg (by simp [hwav])]
          exact decodePhase_fs_self env _ fs m path _ path
        · rw [if_pos (by simp [hwav])]
          simp only [convert_with_explicit_args]
          have hne : path ≠ path ++ "_converted.wav" := Ne.symm (converted_path_ne path)
          have hconv := convertBody_fs env fs (some path) (path ++ "_converted.wav") 16000 path hne
          split
          · exact hconv
          · rw [decodePhase_fs env _ _ m path _ _ path hne]
            exact hconv
      · rw [if_pos (by simp [hex])]

/-- A successful transcription of a non-`.wav`-named input deletes the
intermediate converted file (server.py lines 293-295), and reports the
transcription against the original input path. -/
theorem transcribe_cleanup_on_success (env : Env) (st : SState) (fs : FS) (args : Args)
    (m : Nat) (r : Nat × Nat) (path : String) (fd : FileData)
    (hm : st.vosk_model = some m) (hr : st.vosk_rec = some r)
    (hp : getStr args "file_path" = some path)
    (hnw : pyEndsWith (pyLower path) ".wav" = false)
    (hin : fsLookup fs path = some fd) (hdec : fileDecodable fd = true)
    (hpydub : env.pydubAvailable = true)
    (hclean : ∀ a, (env.decoders m 16000).acceptErr a = none) :
    fsExists (transcribe_audio_offline env st fs args).fs (path ++ "_converted.wav") = false
    ∧ ∃ t, (transcribe_audio_offline env st fs args).res
        = .ok [envelope (.transcriptionResult t
            ((getStr args "model_language").getD "en") path)] := by
  obtain ⟨vm, vr⟩ := st
  dsimp only at hm hr
  subst hm
  subst hr
  obtain ⟨segs, hseg, -, -⟩ :=
    decodeSegs_ok (env.decoders m 16000) hclean
      (chunksOf 4000 (fileAudio fd).audio) ⟨[], 0⟩ (Nat.zero_le _)
  have hbody : convertBody env fs (some path) (path ++ "_converted.wav") 16000
      = (fsWrite (path ++ "_converted.wav")
          (.wav ⟨1, (fileAudio fd).sampwidth, 16000, (fileAudio fd).audio⟩) fs,
         .ok [envelope (.convertSuccess path (path ++ "_converted.wav") 16000)]) := by
    unfold convertBody
    rw [if_neg (by simp [hpydub])]
    simp only [hin, hdec, if_pos]
  have hlook1 : fsLookup (fsWrite (path ++ "_converted.wav")
      (.wav ⟨1, (fileAudio fd).sampwidth, 16000, (fileAudio fd).audio⟩) fs)
      (path ++ "_converted.wav")
      = some (.wav ⟨1, (fileAudio fd).sampwidth, 16000, (fileAudio fd).audio⟩) := by
    rw [fsLookup_fsWrite, if_pos rfl]
  have hphase : decodePhase env ⟨some m, some r⟩
      (fsWrite (path ++ "_converted.wav")
        (.wav ⟨1, (fileAudio fd).sampwidth, 16000, (fileAudio fd).audio⟩) fs)
      m path (path ++ "_converted.wav") ((getStr args "model_language").getD "en")
      = ⟨⟨some m, some (m, 16000)⟩,
         fsErase (path ++ "_converted.wav")
           (fsWrite (path ++ "_converted.wav")
             (.wav ⟨1, (fileAudio fd).sampwidth, 16000, (fileAudio fd).audio⟩) fs),
         warnList ⟨1, (fileAudio fd).sampwidth, 16000, (fileAudio fd).audio⟩,
         .ok [envelope (.transcriptionResult (pyStrip (joinSpace segs))
           ((getStr args "model_language").getD "en") path)]⟩ := by
    unfold decodePhase
    rw [hlook1]
    simp only [hseg]
    rw [if_pos]
    simp [bne_iff_ne.mpr (converted_path_ne path), fsExists, hlook1]
  have hrun : transcribe_audio_offline env ⟨some m, some r⟩ fs args
      = decodePhase env ⟨some m, some r⟩
        (fsWrite (path ++ "_converted.wav")
          (.wav ⟨1, (fileAudio fd).sampwidth, 16000, (fileAudio fd).audio⟩) fs)
        m path (path ++ "_converted.wav") ((getStr args "model_language").getD "en") := by
    unfold transcribe_audio_offline
    simp only [hp]
    rw [if_neg (by simp [fsExists_of_lookup hin])]
    rw [if_pos (by simp [hnw])]
    simp only [convert_with_explicit_args, hbody]
    rw [if_neg (by simp [fsExists, hlook1])]
  refine ⟨?_, ⟨pyStrip (joinSpace segs), ?_⟩⟩
  · rw [hrun, hphase]
    simp [fsExists, fsLookup_fsErase]
  · rw [hrun, hphase]

/-! ## The claims -/

/-- C8: for every platform-capability snapshot, backend selection is the
total deterministic function that prefers the offline decoder (vosk) whenever
it is available — regardless of the online recognizer and of the platform
strings — else picks the online recognizer (SpeechRecognition) when only that
is available, else none. -/
theorem c8_backend_selector_prefers_offline (system machine : String) (vosk_ok sr_ok : Bool) :
    (detect_platform_capabilities system machine vosk_ok sr_ok).recommended_backend
      = select_spec vosk_ok sr_ok := by
  unfold detect_platform_capabilities select_spec
  cases vosk_ok <;> cases sr_ok <;> simp <;> split <;> simp

/-- C3 (amended): for every tool name outside the five registered ones,
the gateway raises `ValueError("Unknown tool: ...")`, which its own handler
re-raises as `Exception("Internal error: Unknown tool: ...")` toward the MCP
transport — no error envelope is returned. -/
theorem c3_unknown_tool_is_reraised (env : Env) (st : SState) (fs : FS) (args : Args)
    (name : String)
    (h1 : name ≠ "get_supported_formats") (h2 : name ≠ "transcribe_audio_offline")
    (h3 : name ≠ "convert_audio_format") (h4 : name ≠ "record_and_transcribe_offline")
    (h5 : name ≠ "download_vosk_model") :
    handle_call_tool env st fs name args
      = ⟨st, fs, [], .error ("Internal error: Unknown tool: " ++ name)⟩ := by
  apply handle_call_tool_error
  unfold dispatch
  rw [if_neg h1, if_neg h2, if_neg h3, if_neg h4, if_neg h5]
  rfl

/-- C3 (counterexample to the claim as stated): invoking the gateway with
the unknown name `"unknown_tool_name"` does not return an `UnknownTool` error
envelope; it raises (`.error`, a fault propagated to the caller). -/
theorem c3_counterexample :
    (handle_call_tool envQuiet stLoaded [] "unknown_tool_name" []).res
      = .error "Internal error: Unknown tool: unknown_tool_name" := rfl

theorem c3_witness :
    handle_call_tool envQuiet stLoaded [] "unknown_tool_name" []
      = ⟨stLoaded, [], [], .error "Internal error: Unknown tool: unknown_tool_name"⟩ :=
  c3_unknown_tool_is_reraised envQuiet stLoaded [] [] "unknown_tool_name"
    (by decide) (by decide) (by decide) (by decide) (by decide)

/-- C2 (amended): with a model loaded, transcribing a nonexistent path
raises `FileNotFoundError("Audio file not found: ...")` (server.py line 238),
which the gateway catches and re-raises as
`Exception("Internal error: Audio file not found: ...")` — a fault toward the
MCP transport, not a `SourceNotFound` error envelope. -/
theorem c2_nonexistent_path_is_reraised (env : Env) (st : SState) (fs : FS) (args : Args)
    (m : Nat) (r : Nat × Nat) (path : String)
    (hm : st.vosk_model = some m) (hr : st.vosk_rec = some r)
    (hp : getStr args "file_path" = some path)
    (hex : fsExists fs path = false) :
    handle_call_tool env st fs "transcribe_audio_offline" args
      = ⟨st, fs, [], .error ("Internal error: Audio file not found: " ++ path)⟩ := by
  apply handle_call_tool_error
  rw [dispatch_transcribe]
  exact transcribe_not_found env st fs args m r path hm hr hp hex

/-- C2 (counterexample to the claim as stated): for the nonexistent input
`"/nonexistent/x.wav"` the call does not return an `isError` envelope of kind
`SourceNotFound`; it raises (`.error`). -/
theorem c2_counterexample :
    (handle_call_tool envQuiet stLoaded [] "transcribe_audio_offline"
        [("file_path", .str "/nonexistent/x.wav")]).res
      = .error "Internal error: Audio file not found: /nonexistent/x.wav" := rfl

theorem c2_witness :
    handle_call_tool envQuiet stLoaded [] "transcribe_audio_offline"
        [("file_path", .str "/nonexistent/x.wav")]
      = ⟨stLoaded, [], [], .error "Internal error: Audio file not found: /nonexistent/x.wav"⟩ :=
  c2_nonexistent_path_is_reraised envQuiet stLoaded [] _ 1 (1, 16000)
    "/nonexistent/x.wav" rfl rfl rfl rfl

/-- C4 (amended): the gateway performs no schema validation at all and
always invokes the handler.  With `file_path` missing, the transcription
handler runs anyway: with no model loaded it returns its model-not-loaded
envelope, and with a model loaded `os.path.exists(None)` raises a `TypeError`
that the gateway re-raises as `Exception("Internal error: ...")` — in neither
case an `InvalidArguments` envelope. -/
theorem c4_no_gateway_validation (env : Env) (st : SState) (fs : FS) (args : Args)
    (hmissing : getStr args "file_path" = none) :
    ((st.vosk_model = none ∨ st.vosk_rec = none) →
      handle_call_tool env st fs "transcribe_audio_offline" args
        = ⟨st, fs, [], .ok [envelope (.modelNotLoaded
            "Please download a Vosk model using download_vosk_model tool")]⟩)
    ∧ (∀ m r, st.vosk_model = some m → st.vosk_rec = some r →
      handle_call_tool env st fs "transcribe_audio_offline" args
        = ⟨st, fs, [], .error ("Internal error: " ++ typeErrorMsg)⟩) := by
  obtain ⟨vm, vr⟩ := st
  constructor
  · intro hnl
    apply handle_call_tool_ok
    rw [dispatch_transcribe]
    unfold transcribe_audio_offline
    rcases hnl with h | h <;> dsimp only at h <;> subst h
    · rfl
    · cases vm <;> rfl
  · intro m r hm hr
    dsimp only at hm hr
    subst hm
    subst hr
    apply handle_call_tool_error
    rw [dispatch_transcribe]
    unfold transcribe_audio_offline
    simp [hmissing]

/-- C4 (counterexample to the claim as stated): a call with the required
`file_path` missing reaches the handler (which answers with its own
model-not-loaded envelope) — no `InvalidArguments` envelope is produced and
the underlying handler *is* invoked. -/
theorem c4_counterexample :
    handle_call_tool envQuiet stUnloaded [] "transcribe_audio_offline" []
      = ⟨stUnloaded, [], [], .ok [envelope (.modelNotLoaded
          "Please download a Vosk model using download_vosk_model tool")]⟩ := rfl

theorem c4_witness :
    handle_call_tool envQuiet stLoaded [] "transcribe_audio_offline" []
      = ⟨stLoaded, [], [], .error ("Internal error: " ++ typeErrorMsg)⟩ :=
  (c4_no_gateway_validation envQuiet stLoaded [] [] rfl).2 1 (1, 16000) rfl rfl

/-- C5 (amended): when conversion succeeds, the output has exactly one
channel and the requested frame rate, but its sample width equals the
sample width of the input — the code calls `set_channels(1)` and
`set_frame_rate(rate)` but never `set_sample_width(2)`, so 16-bit output is
guaranteed only for 16-bit input. -/
theorem c5_convert_output_params (env : Env) (fs : FS) (ip op : String) (sr : Nat)
    (fd : FileData)
    (hpydub : env.pydubAvailable = true)
    (hin : fsLookup fs ip = some fd) (hdec : fileDecodable fd = true) :
    convert_audio_format env fs
        [("input_path", .str ip), ("output_path", .str op), ("sample_rate", .num sr)]
      = (fsWrite op (.wav ⟨1, (fileAudio fd).sampwidth, sr, (fileAudio fd).audio⟩) fs,
         .ok [envelope (.convertSuccess ip op sr)])
    ∧ fsLookup (fsWrite op (.wav ⟨1, (fileAudio fd).sampwidth, sr, (fileAudio fd).audio⟩) fs) op
      = some (.wav ⟨1, (fileAudio fd).sampwidth, sr, (fileAudio fd).audio⟩) := by
  constructor
  · rw [convert_with_explicit_args]
    unfold convertBody
    rw [if_neg (by simp [hpydub])]
    simp only [hin, hdec, if_pos]
  · rw [fsLookup_fsWrite, if_pos rfl]

/-- C5 (counterexample to the claim as stated): converting a 24-bit
(sample width 3) input succeeds yet produces a 24-bit output file — not
canonical 16-bit audio. -/
theorem c5_counterexample :
    (convert_audio_format envQuiet fsDeep
        [("input_path", .str "a.m4a"), ("output_path", .str "out.wav")]).2
      = .ok [envelope (.convertSuccess "a.m4a" "out.wav" 16000)]
    ∧ fsLookup (convert_audio_format envQuiet fsDeep
        [("input_path", .str "a.m4a"), ("output_path", .str "out.wav")]).1 "out.wav"
      = some (.wav ⟨1, 3, 16000, [7]⟩)
    ∧ ¬ isCanonical ⟨1, 3, 16000, [7]⟩ 16000 :=
  ⟨rfl, rfl, by decide⟩

theorem c5_witness :
    convert_audio_format envQuiet fsDeep
        [("input_path", .str "a.m4a"), ("output_path", .str "out.wav"),
         ("sample_rate", .num 16000)]
      = (fsWrite "out.wav" (.wav ⟨1, 3, 16000, [7]⟩) fsDeep,
         .ok [envelope (.convertSuccess "a.m4a" "out.wav" 16000)])
    ∧ fsLookup (fsWrite "out.wav" (.wav ⟨1, 3, 16000, [7]⟩) fsDeep) "out.wav"
      = some (.wav ⟨1, 3, 16000, [7]⟩) :=
  c5_convert_output_params envQuiet fsDeep "a.m4a" "out.wav" 16000
    (.audio true ⟨2, 3, 44100, [7]⟩) rfl rfl rfl

/-- C1 (the code violates the claim): a transcription session that passed
its model check while model 1 was loaded, interleaved with a completing
`download_vosk_model` call that installs model 2, resumes at server.py line
272 and builds its recognizer from the *post-replacement* model 2: the
in-flight session observes the replacement (and the shared `self.vosk_rec` it
decodes through has been reassigned as well).  The last conjunct checks that
the replacement step of the trace is exactly the state change a successful
`download_vosk_model` call performs. -/
theorem c1_inflight_session_observes_replacement :
    runSteps envModel2 [Step.sessionCheck, Step.replaceCompletes, Step.sessionResume 16000]
        stLoaded ⟨none, none⟩
      = (⟨some 2, some (2, 16000)⟩, ⟨some 1, some (2, 16000)⟩)
    ∧ (2 : Nat) ≠ 1
    ∧ (download_vosk_model envModel2 stLoaded [] []).st = initialize_vosk envModel2 stLoaded :=
  ⟨rfl, by decide, rfl⟩

/-- C9 (amended): the original input entry is never mutated or deleted on
any exit path, and on the *success* path of a converted run the intermediate
`..._converted.wav` artifact is deleted; cleanup on error exits is not
guaranteed (see the counterexample). -/
theorem c9_input_preserved_and_success_cleanup :
    (∀ (env : Env) (st : SState) (fs : FS) (args : Args) (path : String),
      getStr args "file_path" = some path →
      fsLookup (transcribe_audio_offline env st fs args).fs path = fsLookup fs path)
    ∧ (∀ (env : Env) (st : SState) (fs : FS) (args : Args) (m : Nat) (r : Nat × Nat)
        (path : String) (fd : FileData),
        st.vosk_model = some m → st.vosk_rec = some r →
        getStr args "file_path" = some path →
        pyEndsWith (pyLower path) ".wav" = false →
        fsLookup fs path = some fd → fileDecodable fd = true →
        env.pydubAvailable = true →
        (∀ a, (env.decoders m 16000).acceptErr a = none) →
        fsExists (transcribe_audio_offline env st fs args).fs
          (path ++ "_converted.wav") = false) :=
  ⟨fun env st fs args path hp => transcribe_preserves_input env st fs args path hp,
   fun env st fs args m r path fd hm hr hp hnw hin hdec hpydub hclean =>
     (transcribe_cleanup_on_success env st fs args m r path fd
        hm hr hp hnw hin hdec hpydub hclean).1⟩

/-- C9 (counterexample to the claim as stated): a decode failure after a
successful conversion returns the error envelope while leaving the converted
artifact `voice.mp3_converted.wav` on disk — the cleanup of lines 293-295 is
skipped on this error exit. -/
theorem c9_counterexample :
    (transcribe_audio_offline envFailing stLoaded fsMp3
        [("file_path", .str "voice.mp3")]).res
      = .ok [envelope (.transcriptionFailed "Failed to process waveform")]
    ∧ fsExists (transcribe_audio_offline envFailing stLoaded fsMp3
        [("file_path", .str "voice.mp3")]).fs "voice.mp3_converted.wav" = true :=
  ⟨rfl, rfl⟩

theorem c9_witness :
    fsLookup (transcribe_audio_offline envQuiet stLoaded fsMp3
        [("file_path", .str "voice.mp3")]).fs "voice.mp3" = fsLookup fsMp3 "voice.mp3"
    ∧ fsExists (transcribe_audio_offline envQuiet stLoaded fsMp3
        [("file_path", .str "voice.mp3")]).fs "voice.mp3_converted.wav" = false :=
  ⟨c9_input_preserved_and_success_cleanup.1 envQuiet stLoaded fsMp3 _ "voice.mp3" rfl,
   c9_input_preserved_and_success_cleanup.2 envQuiet stLoaded fsMp3 _ 1 (1, 16000)
     "voice.mp3" (.audio true ⟨2, 2, 44100, [1, 2, 3]⟩)
     rfl rfl rfl rfl rfl rfl rfl (fun _ => rfl)⟩

/-- C7: for a decoder that does not fail, the finalized transcript
depends only on the concatenated audio: any two chunkings of the same audio
fed in order yield the same transcript. -/
theorem c7_chunking_invariance (d : Decoder) (c1 c2 : List (List Nat))
    (hclean : ∀ a, d.acceptErr a = none) (hflat : c1.flatten = c2.flatten) :
    finalize d c1 = finalize d c2 := by
  obtain ⟨s1, e1, -, j1⟩ := decodeSegs_ok d hclean c1 ⟨[], 0⟩ (Nat.zero_le _)
  obtain ⟨s2, e2, -, j2⟩ := decodeSegs_ok d hclean c2 ⟨[], 0⟩ (Nat.zero_le _)
  unfold finalize
  rw [e1, e2]
  simp only [Except.map]
  have hj : joinSpace s1 = joinSpace s2 := by
    rw [j1, j2]
    simp only [List.nil_append, List.drop_zero, hflat]
  rw [hj]

theorem c7_witness :
    finalize helloDecoder [[1, 2, 3, 4]] = finalize helloDecoder [[1], [2], [3], [4]]
    ∧ finalize helloDecoder [[1, 2, 3, 4]] = .ok "hello" :=
  ⟨c7_chunking_invariance helloDecoder [[1, 2, 3, 4]] [[1], [2], [3], [4]]
      (fun _ => rfl) rfl, rfl⟩

/-- C6: the transcript a decode session finalizes is exactly
`" ".join(accumulatedSegments).strip()`, where the accumulated segments
include the end-of-stream flush; a session over zero chunks finalizes to the
empty string; and a pipeline run on a zero-frame WAV file returns the empty
transcription envelope, never a fault. -/
theorem c6_transcript_is_joined_segments :
    (∀ (d : Decoder) (chunks : List (List Nat)), (∀ a, d.acceptErr a = none) →
      ∃ segs, decodeSegs d chunks ⟨[], 0⟩ = .ok segs ∧
        finalize d chunks = .ok (pyStrip (joinSpace segs)))
    ∧ (∀ d : Decoder, finalize d [] = .ok "")
    ∧ (∀ (env : Env) (st : SState) (fs : FS) (args : Args) (m : Nat) (r : Nat × Nat)
        (path : String) (w : WavFile),
        st.vosk_model = some m → st.vosk_rec = some r →
        getStr args "file_path" = some path →
        pyEndsWith (pyLower path) ".wav" = true →
        fsLookup fs path = some (.wav w) →
        (∀ a, (env.decoders m w.framerate).acceptErr a = none) →
        w.audio = [] →
        (transcribe_audio_offline env st fs args).res
          = .ok [envelope (.transcriptionResult ""
              ((getStr args "model_language").getD "en") path)]) := by
  refine ⟨?_, ?_, ?_⟩
  · intro d chunks hclean
    obtain ⟨segs, hseg, -, -⟩ := decodeSegs_ok d hclean chunks ⟨[], 0⟩ (Nat.zero_le _)
    refine ⟨segs, hseg, ?_⟩
    unfold finalize
    rw [hseg]
    rfl
  · intro d
    have h0 : finalResultText d ⟨[], 0⟩ = "" := by
      unfold finalResultText
      rw [d.silent]
      rfl
    unfold finalize
    simp [decodeSegs, h0]
    rfl
  · intro env st fs args m r path w hm hr hp hw hf hclean hempty
    obtain ⟨segs, hseg, hrun⟩ :=
      transcribe_wav_run env st fs args m r path w hm hr hp hw hf hclean
    have hchunks : chunksOf 4000 w.audio = [] := by
      rw [hempty]
      rfl
    rw [hchunks] at hseg
    have h0 : finalResultText (env.decoders m w.framerate) ⟨[], 0⟩ = "" := by
      unfold finalResultText
      rw [(env.decoders m w.framerate).silent]
      rfl
    have hok : decodeSegs (env.decoders m w.framerate) [] ⟨[], 0⟩
        = .ok ([] : List String) := by
      simp [decodeSegs, h0]
    have hsegs : segs = [] := by
      have h2 := hok.symm.trans hseg
      injection h2 with h3
      exact h3.symm
    rw [hrun, hsegs]
    rfl

theorem c6_witness :
    finalize quietDecoder [] = .ok ""
    ∧ (transcribe_audio_offline envQuiet stLoaded fsEmptyWav
        [("file_path", .str "e.wav")]).res
      = .ok [envelope (.transcriptionResult "" "en" "e.wav")] :=
  ⟨c6_transcript_is_joined_segments.2.1 quietDecoder,
   c6_transcript_is_joined_segments.2.2 envQuiet stLoaded fsEmptyWav _ 1 (1, 16000)
     "e.wav" ⟨1, 2, 16000, []⟩ rfl rfl rfl rfl rfl (fun _ => rfl) rfl⟩

/-- C10: the decision to normalize is exactly the case-insensitive
`.wav`-suffix test on the *file name* (server.py line 245): a `.wav`-named
file is fed to the decoder directly — the filesystem is untouched (no
conversion), the shared recognizer is rebuilt at the frame rate of the file itself
rather than 16000 (line 272), and a non-canonical format produces only the
warning log line while the call still returns a success envelope. -/
theorem c10_wav_named_files_skip_normalization (env : Env) (st : SState) (fs : FS)
    (args : Args) (m : Nat) (r : Nat × Nat) (path : String) (w : WavFile)
    (hm : st.vosk_model = some m) (hr : st.vosk_rec = some r)
    (hp : getStr args "file_path" = some path)
    (hw : pyEndsWith (pyLower path) ".wav" = true)
    (hf : fsLookup fs path = some (.wav w))
    (hclean : ∀ a, (env.decoders m w.framerate).acceptErr a = none) :
    ∃ segs,
      transcribe_audio_offline env st fs args
        = ⟨{ st with vosk_rec := some (m, w.framerate) }, fs, warnList w,
           .ok [envelope (.transcriptionResult (pyStrip (joinSpace segs))
             ((getStr args "model_language").getD "en") path)]⟩
      ∧ (w.framerate ≠ 16000 → warnList w = [formatWarning w]) := by
  obtain ⟨segs, hseg, hrun⟩ :=
    transcribe_wav_run env st fs args m r path w hm hr hp hw hf hclean
  refine ⟨segs, hrun, ?_⟩
  intro hrate
  unfold warnList
  rw [if_pos (by simp [bne_iff_ne.mpr hrate])]

theorem c10_witness :
    ∃ segs,
      transcribe_audio_offline envQuiet stLoaded fsUpperWav [("file_path", .str "A.WAV")]
        = ⟨⟨some 1, some (1, 44100)⟩, fsUpperWav, warnList ⟨2, 2, 44100, [1, 2, 3]⟩,
           .ok [envelope (.transcriptionResult (pyStrip (joinSpace segs)) "en" "A.WAV")]⟩
      ∧ ((44100 : Nat) ≠ 16000 →
          warnList ⟨2, 2, 44100, [1, 2, 3]⟩ = [formatWarning ⟨2, 2, 44100, [1, 2, 3]⟩]) :=
  c10_wav_named_files_skip_normalization envQuiet stLoaded fsUpperWav _ 1 (1, 16000)
    "A.WAV" ⟨2, 2, 44100, [1, 2, 3]⟩ rfl rfl rfl rfl rfl (fun _ => rfl)
